import Mathlib

/-!
A shallow embedding of the core pipeline of the `scraper` crate
(species/occurrence resolution, occurrence pagination, the bulk media-marking
queries, the media download path and the cropper batch application), together
with theorems checking the specification's claims against it.

Rust `i64`/`i32` values are modelled as `Int`, `usize` as `Nat` (with the
`as usize` cast made explicit where it occurs), `Uuid` as `String`, and the
network / filesystem as explicit oracles passed to the functions.  Database
rows are lists of records; the single transaction wrapping each unit of work
is modelled by returning either the updated state (commit) or the initial
state (rollback on a database error).
-/

namespace Scraper

/-- One row of the taxonomic reference file (`taxref.rs`, `Entry`): the
classification strings and the unique valid name.  The Rust fields `class`
and `order` are kept as `class_` and `order`. -/
structure Entry where
  reign : String
  phylum : String
  class_ : String
  order : String
  family : String
  genus : String
  valid_name : String
  deriving DecidableEq, Repr

/-- A `species` row (`db.rs`, `Species`). -/
structure SpeciesRow where
  id : Nat
  reign : String
  phylum : String
  class_ : String
  order : String
  family : String
  genus : String
  valid_name : String
  species_key : Option Int
  available_occurrences : Int
  done : Bool
  deriving DecidableEq, Repr

/-- An `ignored_species` row (`db.rs`, `IgnoredSpecies`). -/
structure IgnoredRow where
  id : Nat
  reign : String
  phylum : String
  class_ : String
  order : String
  family : String
  genus : String
  valid_name : String
  species_key : Option Int
  deriving DecidableEq, Repr

/-- An `occurrences` row (`db.rs`, `Occurrence`): the GBIF key, the dataset
UUID and the id of the owning species row. -/
structure OccurrenceRow where
  id : Nat
  key : Int
  dataset_key : String
  species : Nat
  deriving DecidableEq, Repr

/-- A `medias` row (`db.rs`, `Media`).  The four bounding-box coordinates and
the confidence are carried opaquely (copied from the cropper response), so
their numeric type is irrelevant; `Int` stands for the stored `f64` bits. -/
structure MediaRow where
  id : Nat
  url : String
  path : Option String
  status_code : Option Int
  to_download : Bool
  cropped : Bool
  x : Option Int
  y : Option Int
  width : Option Int
  height : Option Int
  confidence : Option Int
  occurrence : Nat
  deriving DecidableEq, Repr

/-- The relational store: the four tables and the id counters used by inserts. -/
structure DbState where
  species : List SpeciesRow
  ignored : List IgnoredRow
  occurrences : List OccurrenceRow
  medias : List MediaRow
  nextSpeciesId : Nat
  nextIgnoredId : Nat
  nextOccId : Nat
  nextMediaId : Nat
  deriving DecidableEq, Repr

/-- `Species::get_by_valid_name`. -/
def species_get_by_valid_name (name : String) (db : DbState) : Option SpeciesRow :=
  db.species.find? (fun s => s.valid_name == name)

/-- `Species::get_by_species_key` (the key column is unique when present). -/
def species_get_by_species_key (key : Int) (db : DbState) : Option SpeciesRow :=
  db.species.find? (fun s => s.species_key == some key)

/-- `IgnoredSpecies::get_by_valid_name`. -/
def ignored_get_by_valid_name (name : String) (db : DbState) : Option IgnoredRow :=
  db.ignored.find? (fun s => s.valid_name == name)

/-- `Media::get_by_url`. -/
def media_get_by_url (url : String) (db : DbState) : Option MediaRow :=
  db.medias.find? (fun m => m.url == url)

/-- `Media::get_by_id`. -/
def media_get_by_id (id : Nat) (db : DbState) : Option MediaRow :=
  db.medias.find? (fun m => m.id == id)

/-- Occurrence lookup by row id (the `occurrence` foreign key of a media). -/
def occurrence_get_by_id (id : Nat) (db : DbState) : Option OccurrenceRow :=
  db.occurrences.find? (fun o => o.id == id)

/-- Species lookup by row id (the `species` foreign key of an occurrence). -/
def species_get_by_id (id : Nat) (db : DbState) : Option SpeciesRow :=
  db.species.find? (fun s => s.id == id)

/-- The fields of a species row before an id is allocated
(`SpeciesWithoutId`, built by `Species::from_taxref`). -/
structure SpeciesData where
  reign : String
  phylum : String
  class_ : String
  order : String
  family : String
  genus : String
  valid_name : String
  species_key : Option Int
  available_occurrences : Int
  done : Bool
  deriving DecidableEq, Repr

/-- `Species::from_taxref`: a species row prepared from a taxref entry,
always with `done = false`. -/
def species_from_taxref (entry : Entry) (species_key : Option Int)
    (available_occurrences : Int) : SpeciesData :=
  ⟨entry.reign, entry.phylum, entry.class_, entry.order, entry.family,
    entry.genus, entry.valid_name, species_key, available_occurrences, false⟩

/-- Insert of a `SpeciesWithoutId` (`save` on a fresh species).  The insert
fails (unique-constraint violation, aborting the enclosing transaction) when
the `valid_name` or a present `species_key` is already taken. -/
def insertSpecies (d : SpeciesData) (db : DbState) :
    Except Unit (SpeciesRow × DbState) :=
  if db.species.any (fun s => s.valid_name == d.valid_name) then .error ()
  else if (match d.species_key with
    | some k => db.species.any (fun s => s.species_key == some k)
    | none => false) then .error ()
  else
    let row : SpeciesRow :=
      ⟨db.nextSpeciesId, d.reign, d.phylum, d.class_, d.order, d.family,
        d.genus, d.valid_name, d.species_key, d.available_occurrences, d.done⟩
    .ok (row, { db with
      species := db.species ++ [row],
      nextSpeciesId := db.nextSpeciesId + 1 })

/-- `IgnoredSpecies::from_taxref` followed by `save`: insert of an ignored
species, unique on `valid_name`. -/
def insertIgnored (entry : Entry) (species_key : Option Int) (db : DbState) :
    Except Unit DbState :=
  if db.ignored.any (fun s => s.valid_name == entry.valid_name) then .error ()
  else
    let row : IgnoredRow :=
      ⟨db.nextIgnoredId, entry.reign, entry.phylum, entry.class_, entry.order,
        entry.family, entry.genus, entry.valid_name, species_key⟩
    .ok { db with
      ignored := db.ignored ++ [row],
      nextIgnoredId := db.nextIgnoredId + 1 }

/-- `Occurrence::create(...).save`: insert of an occurrence, unique on `key`. -/
def insertOccurrence (key : Int) (dataset_key : String) (speciesId : Nat)
    (db : DbState) : Except Unit (OccurrenceRow × DbState) :=
  if db.occurrences.any (fun o => o.key == key) then .error ()
  else
    let row : OccurrenceRow := ⟨db.nextOccId, key, dataset_key, speciesId⟩
    .ok (row, { db with
      occurrences := db.occurrences ++ [row],
      nextOccId := db.nextOccId + 1 })

/-- `Media::new(url, occurrence).save`: insert of a media row with the default
field values (no path, no status code, not to download, not cropped), unique
on `url`. -/
def insertMedia (url : String) (occurrenceId : Nat) (db : DbState) :
    Except Unit (MediaRow × DbState) :=
  if db.medias.any (fun m => m.url == url) then .error ()
  else
    let row : MediaRow :=
      ⟨db.nextMediaId, url, none, none, false, false, none, none, none, none,
        none, occurrenceId⟩
    .ok (row, { db with
      medias := db.medias ++ [row],
      nextMediaId := db.nextMediaId + 1 })

/-- `save` on a species row that already has an id: an update in place. -/
def updateSpecies (row : SpeciesRow) (db : DbState) : DbState :=
  { db with species := db.species.map (fun s => if s.id == row.id then row else s) }

/-- `save` on a media row that already has an id: an update in place. -/
def updateMedia (row : MediaRow) (db : DbState) : DbState :=
  { db with medias := db.medias.map (fun m => if m.id == row.id then row else m) }

/-- Whitespace splitting of a character list (Rust `split_whitespace`): maximal
runs of non-whitespace characters, in order, with no empty words. -/
def words_aux : List Char → List Char → List String
  | [], acc => if acc.isEmpty then [] else [String.mk acc.reverse]
  | c :: rest, acc =>
    if c.isWhitespace then
      if acc.isEmpty then words_aux rest []
      else String.mk acc.reverse :: words_aux rest []
    else words_aux rest (c :: acc)

/-- `utils::pretty_name`: remove parentheses, split on whitespace, find the
first word after the first one that carries an uppercase character (the
author), and join the words before it. -/
def pretty_name (valid_name : String) : Option String :=
  let split := words_aux (valid_name.toList.filter
    (fun c => !(c == '(' || c == ')'))) []
  match (split.drop 1).findIdx? (fun x => x.toList.any Char.isUpper) with
  | none => none
  | some i => some (String.intercalate " " (split.take (i + 1)))

/-- One media item of a GBIF occurrence result (`gbif.rs`, `Media`): the
`identifier` field may be absent. -/
structure OccMedia where
  url : Option String
  deriving DecidableEq, Repr

/-- One GBIF occurrence search result (`gbif.rs`, `OccurrencesResult`). -/
structure OccResult where
  key : Int
  dataset_key : String
  medias : List OccMedia
  deriving DecidableEq, Repr

/-- One page of the GBIF occurrence search (`gbif.rs`, `OccurrencesResponse`):
the results of the page and the registry-reported total count. -/
structure OccPage where
  results : List OccResult
  count : Int
  deriving DecidableEq, Repr

/-- The remote registry and the archive file, as oracles: the species search
(already reduced to the list of species keys of its results), the occurrence
search as a function of the requested offset, and whether writing the
per-species archive file succeeds. -/
structure Gbif where
  speciesSearch : String → Except Unit (List Int)
  occSearch : Nat → Except Unit OccPage
  fileWriteOk : Bool

/-- The errors `scrap_occurrences` can surface. -/
inductive ScrapErr where
  /-- `Error::SpeciesNotFound`. -/
  | speciesNotFound (name : String)
  /-- A network or JSON-decoding error from the registry. -/
  | net
  /-- A database (unique-constraint) error; the enclosing transaction aborts. -/
  | db
  /-- An IO error writing the archive file. -/
  | io
  /-- An `expect` panic (`pretty_name` returned nothing). -/
  | panic
  /-- The paginated loop ran out of fuel (modelling non-termination). -/
  | fuel
  deriving DecidableEq, Repr

deriving instance DecidableEq for Except

/-- The outcome of `Species::scrap_occurrences`: the returned value, the state
of the store after the enclosing transaction commits or aborts, and how many
remote species-search and occurrence-search calls were made. -/
structure ScrapOut where
  result : Except ScrapErr SpeciesRow
  db : DbState
  speciesCalls : Nat
  occCalls : Nat
  deriving DecidableEq, Repr

/-- Rust's `as usize` cast of an `i64` (used in the pagination guard
`count < parsed_occurrences.count as usize`). -/
def usizeOfI64 (i : Int) : Nat := (i % (2 : Int) ^ 64).toNat

/-- The number of non-blacklisted results of a page that carry at least one
media item (the increment of `scraped`). -/
def countScraped (blacklist : String) (rs : List OccResult) : Nat :=
  (rs.filter (fun x => x.dataset_key != blacklist && !x.medias.isEmpty)).length

/-- The pagination loop of `scrap_occurrences` (`db.rs` lines 243–268): while
`scraped < max_occurrences && count < total as usize`, fetch the next page at
offset `count`, add the number of returned results to `count`, add the page's
non-blacklisted media-carrying results to `scraped`, and append the results.
Returns the accumulated results (or the propagated error) and the number of
occurrence-search calls made.  `fuel` bounds the recursion; the Rust loop has
no such bound. -/
def scrap_loop (occSearch : Nat → Except Unit OccPage) (max_occurrences : Nat)
    (blacklist : String) (total : Int) :
    Nat → Nat → Nat → List OccResult → Except ScrapErr (List OccResult) × Nat
  | 0, _, _, _ => (.error .fuel, 0)
  | fuel + 1, scraped, count, acc =>
    if scraped < max_occurrences ∧ count < usizeOfI64 total then
      match occSearch count with
      | .error _ => (.error .net, 1)
      | .ok page =>
        let out := scrap_loop occSearch max_occurrences blacklist total fuel
          (scraped + countScraped blacklist page.results)
          (count + page.results.length) (acc ++ page.results)
        (out.1, out.2 + 1)
    else (.ok acc, 0)

/-- The duplicate check guarding the persistence of one occurrence result
(`db.rs` lines 280–287): the whole result is skipped when any of its media
items has a URL already present in the store. -/
def hasDuplicateMedia (r : OccResult) (db : DbState) : Bool :=
  r.medias.any (fun m => match m.url with
    | some url => (media_get_by_url url db).isSome
    | none => false)

/-- The inner media-insertion loop of the persistence pass (`db.rs` lines
294–302): a media item with no URL is skipped, the others are inserted. -/
def insertMedias (medias : List OccMedia) (occurrenceId : Nat) (db : DbState) :
    Except Unit DbState :=
  match medias with
  | [] => .ok db
  | m :: rest =>
    match m.url with
    | none => insertMedias rest occurrenceId db
    | some url =>
      match insertMedia url occurrenceId db with
      | .error e => .error e
      | .ok (_, db1) => insertMedias rest occurrenceId db1

/-- Persistence of one occurrence result (`db.rs` lines 277–303): skip the
whole result when one of its media URLs is already stored, otherwise insert
the occurrence and its URL-bearing media. -/
def persistResult (speciesRow : SpeciesRow) (r : OccResult) (db : DbState) :
    Except Unit DbState :=
  if hasDuplicateMedia r db then .ok db
  else
    match insertOccurrence r.key r.dataset_key speciesRow.id db with
    | .error e => .error e
    | .ok (occ, db1) => insertMedias r.medias occ.id db1

/-- Persistence of all accumulated results, in order, threading the store. -/
def persistResults (speciesRow : SpeciesRow) (rs : List OccResult)
    (db : DbState) : Except Unit DbState :=
  match rs with
  | [] => .ok db
  | r :: rest =>
    match persistResult speciesRow r db with
    | .error e => .error e
    | .ok db1 => persistResults speciesRow rest db1

/-- `scrap_occurrences` from the point where a species key is resolved
(`db.rs` lines 208–309).  `db0` is the store at the start of the enclosing
transaction: a database error rolls every write back to it (the caller in
`lib.rs` commits the transaction even when the function returns an error, so
non-database errors keep the writes made so far). -/
def scrap_with_key (fuel : Nat) (species : Entry) (max_occurrences : Nat)
    (blacklist : String) (reg : Gbif) (db0 : DbState) (key : Int)
    (speciesCalls : Nat) : ScrapOut :=
  match species_get_by_species_key key db0 with
  | some duplicate =>
    match insertIgnored species (some key) db0 with
    | .error _ => ⟨.error .db, db0, speciesCalls, 0⟩
    | .ok db1 => ⟨.ok duplicate, db1, speciesCalls, 0⟩
  | none =>
    match reg.occSearch 0 with
    | .error _ => ⟨.error .net, db0, speciesCalls, 1⟩
    | .ok page0 =>
      match insertSpecies (species_from_taxref species (some key) page0.count)
          db0 with
      | .error _ => ⟨.error .db, db0, speciesCalls, 1⟩
      | .ok (row, db1) =>
        let out := scrap_loop reg.occSearch max_occurrences blacklist
          page0.count fuel (countScraped blacklist page0.results)
          page0.results.length page0.results
        match out.1 with
        | .error e => ⟨.error e, db1, speciesCalls, 1 + out.2⟩
        | .ok allResults =>
          if reg.fileWriteOk then
            match persistResults row allResults db1 with
            | .error _ => ⟨.error .db, db0, speciesCalls, 1 + out.2⟩
            | .ok db2 =>
              let row1 := { row with done := true }
              ⟨.ok row1, updateSpecies row1 db2, speciesCalls, 1 + out.2⟩
          else ⟨.error .io, db1, speciesCalls, 1 + out.2⟩

/-- `scrap_occurrences` from the point where the stored key (or its absence)
is known (`db.rs` lines 188–206): resolve a missing key through the species
search, persisting a key-less species row and failing when the search has no
result. -/
def scrap_after_lookup (fuel : Nat) (species : Entry) (max_occurrences : Nat)
    (blacklist : String) (reg : Gbif) (db0 : DbState) (key : Option Int) :
    ScrapOut :=
  match key with
  | some k => scrap_with_key fuel species max_occurrences blacklist reg db0 k 0
  | none =>
    match pretty_name species.valid_name with
    | none => ⟨.error .panic, db0, 0, 0⟩
    | some pretty =>
      match reg.speciesSearch pretty with
      | .error _ => ⟨.error .net, db0, 1, 0⟩
      | .ok results =>
        match results.head? with
        | some k =>
          scrap_with_key fuel species max_occurrences blacklist reg db0 k 1
        | none =>
          match insertSpecies (species_from_taxref species none 0) db0 with
          | .error _ => ⟨.error .db, db0, 1, 0⟩
          | .ok (_, db1) => ⟨.error (.speciesNotFound pretty), db1, 1, 0⟩

/-- `Species::scrap_occurrences` (`db.rs` lines 159–309): the full resolution
and occurrence-scraping pass for one taxref entry. -/
def scrap_occurrences (fuel : Nat) (species : Entry) (max_occurrences : Nat)
    (blacklist : String) (reg : Gbif) (db : DbState) : ScrapOut :=
  match species_get_by_valid_name species.valid_name db with
  | some x =>
    if x.done then ⟨.ok x, db, 0, 0⟩
    else scrap_after_lookup fuel species max_occurrences blacklist reg db
      x.species_key
  | none =>
    match ignored_get_by_valid_name species.valid_name db with
    | some _ => ⟨.error (.speciesNotFound species.valid_name), db, 0, 0⟩
    | none => scrap_after_lookup fuel species max_occurrences blacklist reg db
      none

/-- The count of non-blacklisted occurrences of one species (the per-group
count of the marking pass's second SQL query). -/
def nonBlacklistedCount (blacklist : String) (speciesId : Nat) (db : DbState) :
    Nat :=
  (db.occurrences.filter
    (fun o => o.species == speciesId && o.dataset_key != blacklist)).length

/-- The first bulk marking query (`lib.rs` lines 265–281): for every media
whose occurrence is outside the blacklisted dataset and whose id is the lowest
among the medias of that occurrence (`SELECT DISTINCT ON (occurrence) ...
ORDER BY occurrence, id`), set `to_download = true`. -/
def markFirstMedias (blacklist : String) (db : DbState) : DbState :=
  { db with medias := db.medias.map (fun m =>
      if (match occurrence_get_by_id m.occurrence db with
          | some o => o.dataset_key != blacklist
          | none => false)
          && db.medias.all
            (fun m2 => m2.occurrence != m.occurrence || decide (m.id ≤ m2.id))
      then { m with to_download := true } else m) }

/-- The species selected by the second marking query's grouped subquery
(`lib.rs` lines 291–307): the `GROUP BY ... HAVING count(...) < $2` over
non-blacklisted occurrences yields a group only for a species with at least
one non-blacklisted occurrence, and keeps it when the count is below the
threshold. -/
def isLowSpecies (blacklist : String) (min_occurrences : Nat) (speciesId : Nat)
    (db : DbState) : Bool :=
  decide (0 < nonBlacklistedCount blacklist speciesId db) &&
    decide (nonBlacklistedCount blacklist speciesId db < min_occurrences)

/-- The second bulk marking query (`lib.rs` lines 291–307): `subquery2`
selects the row ids of every occurrence (blacklisted or not) of each species
selected by the grouped subquery, and the outer update joins
`WHERE medias.id = subquery2.id` — so it sets `to_download = true` on every
media row whose *primary key* equals such an occurrence row id, not on the
media rows belonging to those occurrences. -/
def markLowSpecies (blacklist : String) (min_occurrences : Nat) (db : DbState) :
    DbState :=
  { db with medias := db.medias.map (fun m =>
      if db.occurrences.any (fun o =>
          o.id == m.id && isLowSpecies blacklist min_occurrences o.species db)
      then { m with to_download := true } else m) }

/-- The whole bulk marking pass: the two queries, in order. -/
def markingPass (blacklist : String) (min_occurrences : Nat) (db : DbState) :
    DbState :=
  markLowSpecies blacklist min_occurrences (markFirstMedias blacklist db)

/-- How the byte stream behaves after the first chunk was read and written
(`db.rs` lines 538–541): it drains cleanly, a later chunk errors, or a later
file write errors. -/
inductive BodyTail where
  | ok
  | chunkErr
  | writeErr
  deriving DecidableEq, Repr

/-- How the response body of one download attempt behaves (`db.rs` lines
510–541), consulted only on a 2xx status: the stream may be empty, the first
chunk may error, the sniffed type may be unrecognized or not an image, or the
first chunk is a recognized image with the given extension and the file
creation / writes succeed or fail as stated. -/
inductive BodyCase where
  | emptyStream
  | firstChunkErr
  | inferNone
  | inferNonImage
  | chunkOk (ext : String) (createOk : Bool) (firstWriteOk : Bool)
      (tail : BodyTail)
  deriving DecidableEq, Repr

/-- One download attempt as the network presents it: a transport-level failure
with no response, or a response with a status code and a body. -/
inductive DlAttempt where
  | transportErr
  | response (status : Nat) (body : BodyCase)
  deriving DecidableEq, Repr

/-- The errors `download_dirty_with_info` can surface. -/
inductive DlErr where
  | speciesNotFound (name : String)
  | net
  | downloadFailed (url : String)
  | unknownMediaType (url : String)
  | io
  | dbMissing
  deriving DecidableEq, Repr

/-- `Media::download_dirty_with_info` (`db.rs` lines 482–549): fail when the
species has no key; issue the request; on a 2xx status (`status.is_success()`)
sniff the first chunk, require an image type, stream the file to disk and
return the status with the local target path; on any other status return the
status with no path. -/
def download_dirty_with_info (m : MediaRow) (occurrence : OccurrenceRow)
    (species : SpeciesRow) (att : DlAttempt) :
    Except DlErr (Int × Option String) :=
  match species.species_key with
  | none => .error (.speciesNotFound species.valid_name)
  | some species_key =>
    match att with
    | .transportErr => .error .net
    | .response status body =>
      let code : Int := status
      if 200 ≤ status ∧ status < 300 then
        match body with
        | .emptyStream => .error (.downloadFailed m.url)
        | .firstChunkErr => .error .net
        | .inferNone => .error (.unknownMediaType m.url)
        | .inferNonImage => .error (.unknownMediaType m.url)
        | .chunkOk ext createOk firstWriteOk tail =>
          let target_local := toString species_key ++ "/" ++
            toString occurrence.key ++ "_" ++ toString m.id ++ "." ++ ext
          if createOk then
            if firstWriteOk then
              match tail with
              | .ok => .ok (code, some target_local)
              | .chunkErr => .error .net
              | .writeErr => .error .io
            else .error .io
          else .error .io
      else .ok (code, none)

/-- The retry loop of `download_with_info` (`db.rs` lines 444–466): collapse a
failed attempt to `(600, none)`; when the code is 429 and retries remain,
decrement and try again, otherwise break.  Returns the final `(code, target)`
and the number of attempts made.  The source initializes `retries` to 0. -/
def download_loop (oneAttempt : Nat → Except DlErr (Int × Option String)) :
    Nat → Nat → (Int × Option String) × Nat
  | 0, i => ((oneAttempt i).toOption.getD (600, none), 1)
  | retries + 1, i =>
    let r := (oneAttempt i).toOption.getD (600, none)
    if r.1 = 429 then
      let out := download_loop oneAttempt retries (i + 1)
      (out.1, out.2 + 1)
    else (r, 1)

/-- The outcome of `download_with_info`: the returned code, the updated media
row, the store after the save, the number of network attempts made and the
number of store writes. -/
structure DlOut where
  code : Int
  media : MediaRow
  db : DbState
  attempts : Nat
  writes : Nat
  deriving DecidableEq, Repr

/-- `Media::download_with_info` (`db.rs` lines 436–480): run the retry loop
with `retries = 0` as the source does, record the resulting code on the row,
set the path when a target was produced, and save the row. -/
def download_with_info (m : MediaRow) (occurrence : OccurrenceRow)
    (species : SpeciesRow) (net : Nat → DlAttempt) (db : DbState) : DlOut :=
  let out := download_loop
    (fun i => download_dirty_with_info m occurrence species (net i)) 0 0
  let code := out.1.1
  let m1 := { m with status_code := some code }
  let m2 := match out.1.2 with
    | some t => { m1 with path := some t }
    | none => m1
  ⟨code, m2, updateMedia m2 db, out.2, 1⟩

/-- The outcome of `Media::download`: the result, the media row afterwards,
the store afterwards, the number of network attempts and of store writes. -/
structure DownloadOut where
  result : Except DlErr Int
  media : MediaRow
  db : DbState
  attempts : Nat
  writes : Nat
  deriving DecidableEq, Repr

/-- `Media::download` (`db.rs` lines 401–416): return the stored code at once
when one is set, otherwise resolve the owning occurrence and species and run
`download_with_info`. -/
def download (m : MediaRow) (net : Nat → DlAttempt) (db : DbState) :
    DownloadOut :=
  match m.status_code with
  | some c => ⟨.ok c, m, db, 0, 0⟩
  | none =>
    match occurrence_get_by_id m.occurrence db with
    | none => ⟨.error .dbMissing, m, db, 0, 0⟩
    | some occ =>
      match species_get_by_id occ.species db with
      | none => ⟨.error .dbMissing, m, db, 0, 0⟩
      | some sp =>
        let o := download_with_info m occ sp net db
        ⟨.ok o.code, o.media, o.db, o.attempts, o.writes⟩

/-- A successful file entry of a cropper batch response (`cropper.rs`,
`FileCropSuccessResponse`).  The bounding-box numbers are carried opaquely as
`Int`. -/
structure FileCropSuccessResponse where
  id : Nat
  path : String
  cropped_path : String
  x : Int
  y : Int
  width : Int
  height : Int
  confidence : Int
  deriving DecidableEq, Repr

/-- One file entry of a cropper batch response (`cropper.rs`,
`ResponseItem`). -/
inductive ResponseItem where
  | fileCropSuccess (r : FileCropSuccessResponse)
  | fileCropFailure (id : Nat) (path : String)
  deriving DecidableEq, Repr

/-- The media id a response item refers to. -/
def ResponseItem.itemId : ResponseItem → Nat
  | .fileCropSuccess r => r.id
  | .fileCropFailure id _ => id

/-- A cropper batch response (`cropper.rs`, `Batch`). -/
structure Batch where
  id : Int
  files : List ResponseItem
  deriving DecidableEq, Repr

/-- The media ids a batch's files refer to. -/
def batchIds (files : List ResponseItem) : List Nat :=
  files.map ResponseItem.itemId

/-- The per-file application loop of `Cropper::wait_python` (`cropper.rs`
lines 274–307), run inside one transaction: a success looks the media up
(a missing row is an `expect` panic), sets `cropped` with the bounding box and
confidence, saves it, and moves the cropped artifact (an absent `path` is an
`unwrap` panic, a failed `rename` an error); a failure sets `cropped` alone.
Any error aborts the transaction. `renameOk` tells whether moving a given
scratch artifact succeeds. -/
def applyBatchFiles (renameOk : String → Bool) (files : List ResponseItem)
    (db : DbState) : Except Unit DbState :=
  match files with
  | [] => .ok db
  | .fileCropSuccess r :: rest =>
    match media_get_by_id r.id db with
    | none => .error ()
    | some media =>
      let media1 := { media with
        cropped := true, x := some r.x, y := some r.y, width := some r.width,
        height := some r.height, confidence := some r.confidence }
      let db1 := updateMedia media1 db
      match media1.path with
      | none => .error ()
      | some _ =>
        if renameOk r.cropped_path then applyBatchFiles renameOk rest db1
        else .error ()
  | .fileCropFailure id _ :: rest =>
    match media_get_by_id id db with
    | none => .error ()
    | some media =>
      applyBatchFiles renameOk rest (updateMedia { media with cropped := true } db)

/-- The store as `Cropper::wait_python` leaves it for a batch response
(`cropper.rs` lines 271–309): the per-file loop runs in one transaction,
committed once at the end; an error anywhere before the commit rolls every
row of the batch back. -/
def wait_python_apply (renameOk : String → Bool) (batch : Batch)
    (db : DbState) : DbState :=
  match applyBatchFiles renameOk batch.files db with
  | .ok db1 => db1
  | .error _ => db

/-! ### Concrete fixtures -/

/-- An empty store. -/
def emptyDb : DbState := ⟨[], [], [], [], 0, 0, 0, 0⟩

/-- A registry whose every remote call fails: a run that returns a value
without an error therefore made no remote call on it. -/
def failReg : Gbif := ⟨fun _ => .error (), fun _ => .error (), true⟩

/-- A taxref entry used by the concrete runs. -/
def exEntry : Entry :=
  ⟨"Animalia", "Chordata", "Aves", "Passeriformes", "Paridae", "Parus",
    "Aus bus Linnaeus"⟩

/-- The species row of `exEntry` as a first interrupted run leaves it: a
resolved key, the registry-reported total, `done = false`. -/
def exResumeRow : SpeciesRow :=
  ⟨0, "Animalia", "Chordata", "Aves", "Passeriformes", "Paridae", "Parus",
    "Aus bus Linnaeus", some 42, 50, false⟩

/-- A store holding only `exResumeRow`. -/
def exResumeDb : DbState := ⟨[exResumeRow], [], [], [], 1, 0, 0, 0⟩

/-- A species row with a resolved key, used by the download fixtures. -/
def exSp : SpeciesRow :=
  ⟨0, "r", "p", "c", "o", "f", "g", "Aus bus Linnaeus", some 7, 50, false⟩

/-- An occurrence of `exSp`. -/
def exOcc : OccurrenceRow := ⟨0, 1111, "ds", 0⟩

/-- A media of `exOcc`, not yet downloaded. -/
def exMedia : MediaRow :=
  ⟨0, "http://x/1.jpg", none, none, true, false, none, none, none, none, none, 0⟩

/-- A store holding `exSp`, `exOcc` and `exMedia`. -/
def exDb : DbState := ⟨[exSp], [], [exOcc], [exMedia], 1, 0, 1, 1⟩

/-! ### C1 -/

/--
C1: the spec says a `done = false` species row with a stored `species_key`
is resumed into the occurrence-scraping loop, with no `IgnoredSpecies`
recorded.  The code instead finds the row itself through the duplicate-key
lookup (`Species::get_by_species_key`), records an `IgnoredSpecies` for the
entry and returns the stale row before any occurrence scraping: on a store
holding only the interrupted row, the run returns it unchanged (`done` still
false), inserts an ignored-species row, performs no occurrence-search call
(every remote call of `failReg` errors, and none is even attempted) and
persists no occurrence.
-/
theorem c1_resume_records_ignored_and_skips_scraping :
    (scrap_occurrences 5 exEntry 1200 "bl" failReg exResumeDb).result =
      .ok exResumeRow ∧
    (scrap_occurrences 5 exEntry 1200 "bl" failReg exResumeDb).occCalls = 0 ∧
    (scrap_occurrences 5 exEntry 1200 "bl" failReg exResumeDb).db.occurrences
      = [] ∧
    (ignored_get_by_valid_name exEntry.valid_name
      (scrap_occurrences 5 exEntry 1200 "bl" failReg exResumeDb).db).isSome
      = true ∧
    exResumeRow.done = false := by
  decide

/-! ### C2 -/

/--
C2: the spec says an HTTP 429 is retried after a 10-second delay, up to 3
attempts.  The code initializes `retries` to 0, so the retry branch
(`code == 429 && retries > 0`) is unreachable: every call of
`download_with_info` makes exactly one attempt, and a 429 response is
recorded terminally on the first attempt even when the server would keep
answering 429.
-/
theorem c2_429_is_never_retried :
    (∀ m occ sp net db, (download_with_info m occ sp net db).attempts = 1) ∧
    (download_with_info exMedia exOcc exSp
      (fun _ => .response 429 .emptyStream) exDb).code = 429 ∧
    (download_with_info exMedia exOcc exSp
      (fun _ => .response 429 .emptyStream) exDb).media.status_code =
      some 429 ∧
    (download_with_info exMedia exOcc exSp
      (fun _ => .response 429 .emptyStream) exDb).attempts = 1 :=
  ⟨fun _ _ _ _ _ => rfl, by decide, by decide, by decide⟩

/-! ### C7 -/

/--
C7: a species row with `done = true` is returned unchanged by
`scrap_occurrences`, with the store untouched and zero remote registry
calls of either kind.
-/
theorem c7_done_species_idempotent (fuel : Nat) (entry : Entry)
    (max_occurrences : Nat) (blacklist : String) (reg : Gbif) (db : DbState)
    (x : SpeciesRow) (h1 : species_get_by_valid_name entry.valid_name db = some x)
    (h2 : x.done = true) :
    scrap_occurrences fuel entry max_occurrences blacklist reg db =
      ⟨.ok x, db, 0, 0⟩ := by
  simp [scrap_occurrences, h1, h2]

/-- A finished species row, for the C7 witness. -/
def exDoneRow : SpeciesRow :=
  ⟨0, "Animalia", "Chordata", "Aves", "Passeriformes", "Paridae", "Parus",
    "Aus bus Linnaeus", some 42, 50, true⟩

/-- A store holding only `exDoneRow`. -/
def exDoneDb : DbState := ⟨[exDoneRow], [], [], [], 1, 0, 0, 0⟩

/-- Witness for C7 at a concrete finished species and a registry whose every
call fails. -/
theorem c7_done_species_idempotent_witness :
    scrap_occurrences 3 exEntry 1200 "bl" failReg exDoneDb =
      ⟨.ok exDoneRow, exDoneDb, 0, 0⟩ :=
  c7_done_species_idempotent 3 exEntry 1200 "bl" failReg exDoneDb exDoneRow
    (by decide) (by decide)

/-! ### C8 -/

/--
C8: `Media::download` on a row whose `status_code` is already set returns
the stored code at once: no network attempt, no store write, and both the
row and the store are returned unchanged.
-/
theorem c8_set_status_skips_all_io (m : MediaRow) (net : Nat → DlAttempt)
    (db : DbState) (c : Int) (h : m.status_code = some c) :
    download m net db = ⟨.ok c, m, db, 0, 0⟩ := by
  simp [download, h]

/-- A media row whose download already happened, for the C8 witness. -/
def exDoneMedia : MediaRow :=
  ⟨0, "http://x/1.jpg", some "7/1111_0.jpg", some 200, true, false, none,
    none, none, none, none, 0⟩

/-- Witness for C8 at a concrete already-downloaded media. -/
theorem c8_set_status_skips_all_io_witness :
    download exDoneMedia (fun _ => .transportErr) exDb =
      ⟨.ok 200, exDoneMedia, exDb, 0, 0⟩ :=
  c8_set_status_skips_all_io exDoneMedia (fun _ => .transportErr) exDb 200
    (by decide)

/-! ### C3 -/

/--
C3 counterexample: the spec's success range is `[200, 400)`, but the code
gates the file write on `status.is_success()`, which is the 2xx range only.
A download answered with a bare 301 records `status_code = 301` — inside the
claimed range — yet sets no path.
-/
theorem c3_counterexample_301_has_no_path :
    (download_with_info exMedia exOcc exSp
      (fun _ => .response 301 .emptyStream) exDb).code = 301 ∧
    200 ≤ (download_with_info exMedia exOcc exSp
      (fun _ => .response 301 .emptyStream) exDb).code ∧
    (download_with_info exMedia exOcc exSp
      (fun _ => .response 301 .emptyStream) exDb).code < 400 ∧
    (download_with_info exMedia exOcc exSp
      (fun _ => .response 301 .emptyStream) exDb).media.status_code =
      some 301 ∧
    (download_with_info exMedia exOcc exSp
      (fun _ => .response 301 .emptyStream) exDb).media.path = none := by
  decide

/-- A completed `download_dirty_with_info` produces a target path exactly when
the response status was in the 2xx range (`status.is_success()` in the
source), never for a 3xx. -/
theorem download_dirty_ok_path (m : MediaRow) (occ : OccurrenceRow)
    (sp : SpeciesRow) (att : DlAttempt) (c : Int) (t : Option String)
    (h : download_dirty_with_info m occ sp att = .ok (c, t)) :
    t.isSome = true ↔ 200 ≤ c ∧ c < 300 := by
  unfold download_dirty_with_info at h
  cases hk : sp.species_key with
  | none => simp [hk] at h
  | some k =>
    simp only [hk] at h
    cases att with
    | transportErr => simp at h
    | response status body =>
      dsimp only [] at h
      by_cases hs : 200 ≤ status ∧ status < 300
      · rw [if_pos hs] at h
        cases body with
        | emptyStream => simp at h
        | firstChunkErr => simp at h
        | inferNone => simp at h
        | inferNonImage => simp at h
        | chunkOk ext createOk firstWriteOk tail =>
          cases createOk with
          | false => simp at h
          | true =>
            cases firstWriteOk with
            | false => simp at h
            | true =>
              cases tail with
              | chunkErr => simp at h
              | writeErr => simp at h
              | ok =>
                injection h with h2
                injection h2 with hc ht
                subst hc
                subst ht
                simp only [Option.isSome_some, true_iff]
                exact ⟨by exact_mod_cast hs.1, by exact_mod_cast hs.2⟩
      · rw [if_neg hs] at h
        injection h with h2
        injection h2 with hc ht
        subst hc
        subst ht
        simp only [Option.isSome_none, Bool.false_eq_true, false_iff]
        intro hcon
        exact hs ⟨by exact_mod_cast hcon.1, by exact_mod_cast hcon.2⟩

/--
C3 amended: after a completed `download_with_info` on a media whose path was
unset, the path is set if and only if the recorded `status_code` lies in
`[200, 300)` — the 2xx range, not the spec's `[200, 400)`.
-/
theorem c3_path_set_iff_2xx (m : MediaRow) (occ : OccurrenceRow)
    (sp : SpeciesRow) (net : Nat → DlAttempt) (db : DbState)
    (h : m.path = none) :
    (download_with_info m occ sp net db).media.path.isSome = true ↔
      200 ≤ (download_with_info m occ sp net db).code ∧
        (download_with_info m occ sp net db).code < 300 := by
  simp only [download_with_info, download_loop]
  rcases hd : download_dirty_with_info m occ sp (net 0) with e | ⟨c, t⟩
  · simp only [hd, Except.toOption, Option.getD]
    simp [h]
  · simp only [hd, Except.toOption, Option.getD]
    cases t with
    | some s =>
      have := (download_dirty_ok_path m occ sp (net 0) c (some s) hd).mp rfl
      simpa using this
    | none =>
      have := download_dirty_ok_path m occ sp (net 0) c none hd
      simp only [Option.isSome_none, Bool.false_eq_true, false_iff] at this
      simpa [h] using this

/-- Witness for the amended C3 at a concrete 301 response. -/
theorem c3_path_set_iff_2xx_witness :
    (download_with_info exMedia exOcc exSp
      (fun _ => .response 301 .emptyStream) exDb).media.path.isSome = true ↔
      200 ≤ (download_with_info exMedia exOcc exSp
        (fun _ => .response 301 .emptyStream) exDb).code ∧
        (download_with_info exMedia exOcc exSp
          (fun _ => .response 301 .emptyStream) exDb).code < 300 :=
  c3_path_set_iff_2xx exMedia exOcc exSp
    (fun _ => .response 301 .emptyStream) exDb (by decide)

/-! ### C9 -/

/--
C9: a `download_with_info` run always records a status code on the row
(conjunct 1); any failed attempt — not only a transport failure — collapses
to the sentinel 600 with the path untouched (conjunct 2); and a transport
failure, an empty body, an unrecognized or non-image sniffed type, and a
filesystem write error are all such failures (remaining conjuncts).
-/
theorem c9_every_failure_collapses_to_600 (m : MediaRow) (occ : OccurrenceRow)
    (sp : SpeciesRow) (net : Nat → DlAttempt) (db : DbState)
    (h : m.status_code = none) :
    (download_with_info m occ sp net db).media.status_code =
      some (download_with_info m occ sp net db).code ∧
    (∀ e, download_dirty_with_info m occ sp (net 0) = .error e →
      (download_with_info m occ sp net db).code = 600 ∧
      (download_with_info m occ sp net db).media.path = m.path) ∧
    (download_dirty_with_info m occ sp .transportErr).toOption = none ∧
    (∀ status, 200 ≤ status → status < 300 →
      (download_dirty_with_info m occ sp
        (.response status .emptyStream)).toOption = none ∧
      (download_dirty_with_info m occ sp
        (.response status .inferNone)).toOption = none ∧
      (download_dirty_with_info m occ sp
        (.response status .inferNonImage)).toOption = none ∧
      (∀ ext, (download_dirty_with_info m occ sp
          (.response status (.chunkOk ext true true .writeErr))).toOption
          = none ∧
        (download_dirty_with_info m occ sp
          (.response status (.chunkOk ext false true .ok))).toOption
          = none)) := by
  refine ⟨?_, ?_, ?_, ?_⟩
  · simp only [download_with_info, download_loop]
    rcases hd : download_dirty_with_info m occ sp (net 0) with e | ⟨c, t⟩
    · simp [hd, Except.toOption]
    · cases t <;> simp [hd, Except.toOption]
  · intro e hd
    simp [download_with_info, download_loop, hd, Except.toOption]
  · cases hk : sp.species_key <;>
      simp [download_dirty_with_info, hk, Except.toOption]
  · intro status h1 h2
    cases hk : sp.species_key with
    | none => simp [download_dirty_with_info, hk, Except.toOption]
    | some k =>
      refine ⟨?_, ?_, ?_, fun ext => ⟨?_, ?_⟩⟩ <;>
        simp [download_dirty_with_info, hk, Except.toOption,
          if_pos (⟨h1, h2⟩ : _ ∧ _)]

/-- Witness for C9 at a concrete fresh media and a transport failure. -/
theorem c9_every_failure_collapses_to_600_witness :
    (download_with_info exMedia exOcc exSp (fun _ => .transportErr)
      exDb).media.status_code =
      some (download_with_info exMedia exOcc exSp (fun _ => .transportErr)
        exDb).code ∧
    (∀ e, download_dirty_with_info exMedia exOcc exSp
        ((fun _ => DlAttempt.transportErr) 0) = .error e →
      (download_with_info exMedia exOcc exSp (fun _ => .transportErr)
        exDb).code = 600 ∧
      (download_with_info exMedia exOcc exSp (fun _ => .transportErr)
        exDb).media.path = exMedia.path) ∧
    (download_dirty_with_info exMedia exOcc exSp .transportErr).toOption
      = none ∧
    (∀ status, 200 ≤ status → status < 300 →
      (download_dirty_with_info exMedia exOcc exSp
        (.response status .emptyStream)).toOption = none ∧
      (download_dirty_with_info exMedia exOcc exSp
        (.response status .inferNone)).toOption = none ∧
      (download_dirty_with_info exMedia exOcc exSp
        (.response status .inferNonImage)).toOption = none ∧
      (∀ ext, (download_dirty_with_info exMedia exOcc exSp
          (.response status (.chunkOk ext true true .writeErr))).toOption
          = none ∧
        (download_dirty_with_info exMedia exOcc exSp
          (.response status (.chunkOk ext false true .ok))).toOption
          = none)) :=
  c9_every_failure_collapses_to_600 exMedia exOcc exSp
    (fun _ => .transportErr) exDb (by decide)

/-! ### C4 -/

/-- A species for the marking fixtures. -/
def c4Sp : SpeciesRow :=
  ⟨0, "r", "p", "c", "o", "f", "g", "Cus dus Linnaeus", some 9, 1, false⟩

/-- An occurrence of `c4Sp` inside the blacklisted dataset `"bl"`. -/
def c4Occ : OccurrenceRow := ⟨0, 500, "bl", 0⟩

/-- The single media of `c4Occ`. -/
def c4Media : MediaRow :=
  ⟨0, "u0", none, none, false, false, none, none, none, none, none, 0⟩

/-- A store where every occurrence of the species is blacklisted. -/
def c4Db : DbState := ⟨[c4Sp], [], [c4Occ], [c4Media], 1, 0, 1, 1⟩

/--
C4 counterexample: a species all of whose occurrences are blacklisted has a
non-blacklisted count of zero — strictly below `minOccurrences = 30` — yet
the marking pass flags none of its media: the second query's
`GROUP BY ... HAVING` subquery ranges over non-blacklisted occurrences only,
so such a species produces no group at all.
-/
theorem c4_counterexample_fully_blacklisted_species_unmarked :
    nonBlacklistedCount "bl" 0 c4Db = 0 ∧
    (∀ m ∈ (markingPass "bl" 30 c4Db).medias, m.to_download = false) := by
  decide

/-- The single non-blacklisted occurrence of the C4 join fixture: its row id
(7) coincides with no media id. -/
def c4jOcc : OccurrenceRow := ⟨7, 9, "ds", 0⟩

/-- First media of `c4jOcc` (the lowest media id of the occurrence). -/
def c4jMediaA : MediaRow :=
  ⟨3, "wA", none, none, false, false, none, none, none, none, none, 7⟩

/-- Second media of `c4jOcc`. -/
def c4jMediaB : MediaRow :=
  ⟨4, "wB", none, none, false, false, none, none, none, none, none, 7⟩

/-- A store where the species is below the threshold (one non-blacklisted
occurrence) and one of its occurrences carries two media. -/
def c4jDb : DbState :=
  ⟨[c4Sp], [], [c4jOcc], [c4jMediaA, c4jMediaB], 1, 0, 8, 5⟩

/--
C4 join bug, at the failing input: species 0 is selected by the grouped
subquery (one non-blacklisted occurrence, below `minOccurrences = 30`), so
the claim says all its media end up `to_download = true`; but the second
query's outer join is `WHERE medias.id = subquery2.id` against *occurrence*
row ids, so after the whole pass only media 3 — marked by the first query as
the lowest id of its occurrence — is flagged, and media 4 of the same
occurrence of the same below-threshold species stays unmarked.
-/
theorem c4_join_bug_leaves_low_species_media_unmarked :
    isLowSpecies "bl" 30 0 c4jDb = true ∧
    nonBlacklistedCount "bl" 0 c4jDb = 1 ∧
    (media_get_by_id 3 (markingPass "bl" 30 c4jDb)).map MediaRow.to_download
      = some true ∧
    (media_get_by_id 4 (markingPass "bl" 30 c4jDb)).map MediaRow.to_download
      = some false := by
  decide

/-! ### C10 -/

/-- The duplicate check of the persistence pass never fires on a media item
with no URL: filtering URL-less items out leaves its verdict unchanged. -/
theorem hasDuplicateMedia_filter (r : OccResult) (db : DbState) :
    hasDuplicateMedia
        { r with medias := r.medias.filter (fun m => m.url.isSome) } db =
      hasDuplicateMedia r db := by
  unfold hasDuplicateMedia
  dsimp only []
  induction r.medias with
  | nil => rfl
  | cons x xs ih =>
    cases hx : x.url with
    | none => simp [List.filter_cons, List.any_cons, hx, ih]
    | some u => simp [List.filter_cons, List.any_cons, hx, ih]

/-- The media-insertion loop skips URL-less items: filtering them out leaves
its result unchanged. -/
theorem insertMedias_filter (occId : Nat) (l : List OccMedia) (db : DbState) :
    insertMedias (l.filter (fun m => m.url.isSome)) occId db =
      insertMedias l occId db := by
  induction l generalizing db with
  | nil => rfl
  | cons x xs ih =>
    cases hx : x.url with
    | none =>
      have : insertMedias (x :: xs) occId db = insertMedias xs occId db := by
        simp [insertMedias, hx]
      rw [this, ← ih]
      simp [List.filter_cons, hx]
    | some u =>
      simp only [List.filter_cons, hx, Option.isSome_some, if_pos]
      simp only [insertMedias, hx]
      rcases hins : insertMedia u occId db with e | ⟨mr, db1⟩ <;> simp [hins, ih]

/-- The single occurrence result of the C10 concrete run: one URL-less media
item and one sibling with a URL. -/
def c10R : OccResult := ⟨77, "ds", [⟨none⟩, ⟨some "u9"⟩]⟩

/-- The store before the C10 concrete run. -/
def c10Db : DbState := ⟨[exSp], [], [], [], 1, 0, 0, 0⟩

/-- The store after the C10 concrete run: the occurrence and the URL-bearing
media were persisted, and no row exists for the URL-less item. -/
def c10Db1 : DbState :=
  ⟨[exSp], [], [⟨0, 77, "ds", 0⟩],
    [⟨0, "u9", none, none, false, false, none, none, none, none, none, 0⟩],
    1, 0, 1, 1⟩

/--
C10: a media item whose URL is absent is silently dropped during occurrence
persistence — erasing such items changes neither the duplicate-skip decision
nor the inserted rows (conjunct 1) —, while the occurrence and its
URL-bearing sibling are still persisted and no row is created for the
URL-less item (the concrete run of conjunct 2).
-/
theorem c10_url_less_media_dropped :
    (∀ sp r db, persistResult sp r db =
      persistResult sp
        { r with medias := r.medias.filter (fun m => m.url.isSome) } db) ∧
    persistResult exSp c10R c10Db = .ok c10Db1 := by
  constructor
  · intro sp r db
    unfold persistResult
    rw [hasDuplicateMedia_filter]
    by_cases hdup : hasDuplicateMedia r db = true
    · simp [hdup]
    · simp only [Bool.not_eq_true] at hdup
      rcases hocc : insertOccurrence r.key r.dataset_key sp.id db with
          e | ⟨occ, db1⟩ <;>
        simp [hocc, hdup, insertMedias_filter]
  · decide

/-! ### C5 -/

/-- The first (and only fetched) occurrence page of the C5 concrete run: two
non-blacklisted results, each with one media item, and a reported total of
50. -/
def c5Page : OccPage :=
  ⟨[⟨101, "ds", [⟨some "u1"⟩]⟩, ⟨102, "ds", [⟨some "u2"⟩]⟩], 50⟩

/-- The registry of the C5 concrete run: the species search resolves to key
1234 and only the page at offset 0 exists — any further fetch would fail, so
a successful run proves no second page was requested. -/
def c5Reg : Gbif :=
  ⟨fun _ => .ok [1234], fun n => if n == 0 then .ok c5Page else .error (), true⟩

/-- The species row the C5 concrete run ends with: the key resolved by the
search, `available_occurrences` = the registry-reported 50, `done = true`. -/
def c5Row : SpeciesRow :=
  ⟨0, "Animalia", "Chordata", "Aves", "Passeriformes", "Paridae", "Parus",
    "Aus bus Linnaeus", some 1234, 50, true⟩

/--
C5: the pagination loop stops exactly when the guard
`scraped < maxOccurrences && fetched < totalAvailable` fails (conjunct 1),
and fetches another page — at offset `fetched` — whenever it holds
(conjunct 2); on the concrete run with `maxOccurrences = 2`, a first page of
2 non-blacklisted media-carrying results and a reported total of 50, exactly
one occurrence-search call is made, `available_occurrences` is recorded as
50 and `done` becomes true (remaining conjuncts).
-/
theorem c5_pagination_guard_and_example :
    (∀ occS max_occurrences bl total fuel scraped count acc,
      ¬(scraped < max_occurrences ∧ count < usizeOfI64 total) →
      scrap_loop occS max_occurrences bl total (fuel + 1) scraped count acc =
        (.ok acc, 0)) ∧
    (∀ occS max_occurrences bl total fuel scraped count acc,
      scraped < max_occurrences → count < usizeOfI64 total →
      1 ≤ (scrap_loop occS max_occurrences bl total (fuel + 1) scraped count
        acc).2) ∧
    (scrap_occurrences 9 exEntry 2 "bl" c5Reg emptyDb).result = .ok c5Row ∧
    (scrap_occurrences 9 exEntry 2 "bl" c5Reg emptyDb).occCalls = 1 ∧
    (scrap_occurrences 9 exEntry 2 "bl" c5Reg emptyDb).db.species =
      [c5Row] := by
  refine ⟨?_, ?_, by decide, by decide, by decide⟩
  · intro occS max_occurrences bl total fuel scraped count acc h
    simp only [scrap_loop]
    rw [if_neg h]
  · intro occS max_occurrences bl total fuel scraped count acc h1 h2
    simp only [scrap_loop]
    rw [if_pos ⟨h1, h2⟩]
    rcases occS count with e | page <;> simp

/-! ### C6 -/

/-- A media row found by id carries that id. -/
theorem media_get_by_id_eq (i : Nat) (db : DbState) (m : MediaRow)
    (h : media_get_by_id i db = some m) : m.id = i := by
  unfold media_get_by_id at h
  have := List.find?_some h
  simpa using this

/-- Replacing the row of one id leaves the lookup of any other id
unchanged. -/
theorem find?_update_ne (l : List MediaRow) (mu : MediaRow) (i : Nat)
    (h : i ≠ mu.id) :
    (l.map (fun x => if x.id == mu.id then mu else x)).find?
        (fun y => y.id == i) = l.find? (fun y => y.id == i) := by
  induction l with
  | nil => rfl
  | cons x xs ih =>
    simp only [List.map_cons]
    by_cases hx : x.id = mu.id
    · have e1 : ((if x.id == mu.id then mu else x) : MediaRow) = mu := by
        simp [hx]
      have p1 : (mu.id == i) = false := by simp [Ne.symm h]
      have p2 : (x.id == i) = false := by
        simp only [beq_eq_false_iff_ne, ne_eq, hx]
        exact fun hh => h hh.symm
      rw [e1]
      simp only [List.find?, p1, p2]
      exact ih
    · have e1 : ((if x.id == mu.id then mu else x) : MediaRow) = x := by
        simp [hx]
      rw [e1]
      by_cases px : x.id = i
      · simp only [List.find?, px, beq_self_eq_true]
      · have p2 : (x.id == i) = false := by simp [px]
        simp only [List.find?, p2]
        exact ih

/-- Replacing the row of an id that is present makes the lookup of that id
return the replacement. -/
theorem find?_update_hit (l : List MediaRow) (mu : MediaRow) (i : Nat)
    (hmu : mu.id = i) (m0 : MediaRow)
    (h : l.find? (fun y => y.id == i) = some m0) :
    (l.map (fun x => if x.id == mu.id then mu else x)).find?
        (fun y => y.id == i) = some mu := by
  induction l with
  | nil => simp at h
  | cons x xs ih =>
    simp only [List.map_cons]
    by_cases px : x.id = i
    · have e1 : ((if x.id == mu.id then mu else x) : MediaRow) = mu := by
        simp [px, hmu]
      rw [e1]
      simp [List.find?, hmu]
    · have e1 : ((if x.id == mu.id then mu else x) : MediaRow) = x := by
        have : x.id ≠ mu.id := fun hh => px (hh.trans hmu)
        simp [this]
      rw [e1]
      have p2 : (x.id == i) = false := by simp [px]
      simp only [List.find?, p2] at h ⊢
      exact ih h

/-- An update of one id leaves the lookup of any other id unchanged. -/
theorem media_get_by_id_update_ne {i : Nat} {mu : MediaRow} {db : DbState}
    (h : i ≠ mu.id) :
    media_get_by_id i (updateMedia mu db) = media_get_by_id i db := by
  unfold media_get_by_id updateMedia
  dsimp only []
  exact find?_update_ne _ _ _ h

/-- An update of an id that is present makes the lookup of that id return the
replacement row. -/
theorem media_get_by_id_update_hit {i : Nat} {mu : MediaRow} {db : DbState}
    {m0 : MediaRow} (hmu : mu.id = i) (h : media_get_by_id i db = some m0) :
    media_get_by_id i (updateMedia mu db) = some mu := by
  unfold media_get_by_id at h
  unfold media_get_by_id updateMedia
  dsimp only []
  exact find?_update_hit _ _ _ hmu m0 h

/-- A successful batch application does not touch the rows of ids outside the
batch. -/
theorem applyBatchFiles_frame (renameOk : String → Bool)
    (files : List ResponseItem) (db db1 : DbState)
    (h : applyBatchFiles renameOk files db = .ok db1) (i : Nat)
    (hi : i ∉ batchIds files) :
    media_get_by_id i db1 = media_get_by_id i db := by
  induction files generalizing db with
  | nil =>
    injection h with h
    rw [h]
  | cons f rest ih =>
    simp only [batchIds, List.map_cons, List.mem_cons, not_or] at hi
    obtain ⟨hir, hirest⟩ := hi
    have hirest' : i ∉ batchIds rest := by simpa [batchIds] using hirest
    cases f with
    | fileCropSuccess r =>
      unfold applyBatchFiles at h
      rcases hg : media_get_by_id r.id db with _ | media
      · rw [hg] at h; cases h
      · rw [hg] at h
        dsimp only [] at h
        rcases hp : media.path with _ | s
        · rw [hp] at h; cases h
        · rw [hp] at h
          by_cases hr : renameOk r.cropped_path = true
          · rw [if_pos hr] at h
            have hid : media.id = r.id := media_get_by_id_eq _ _ _ hg
            have hne : i ≠ r.id := by simpa [ResponseItem.itemId] using hir
            rw [ih _ h hirest']
            apply media_get_by_id_update_ne
            show i ≠ media.id
            rw [hid]
            exact hne
          · rw [if_neg hr] at h; cases h
    | fileCropFailure j p =>
      unfold applyBatchFiles at h
      rcases hg : media_get_by_id j db with _ | media
      · rw [hg] at h; cases h
      · rw [hg] at h
        dsimp only [] at h
        have hid : media.id = j := media_get_by_id_eq _ _ _ hg
        have hne : i ≠ j := by simpa [ResponseItem.itemId] using hir
        rw [ih _ h hirest']
        apply media_get_by_id_update_ne
        show i ≠ media.id
        rw [hid]
        exact hne

/-- A successful batch application updates exactly as the protocol says:
every success's row gains the bounding box and the `cropped` flag, every
failure's row the `cropped` flag alone. -/
theorem applyBatchFiles_ok_updates (renameOk : String → Bool)
    (files : List ResponseItem) (db db1 : DbState)
    (h : applyBatchFiles renameOk files db = .ok db1)
    (hnd : (batchIds files).Nodup) :
    (∀ r, ResponseItem.fileCropSuccess r ∈ files →
      ∃ m0, media_get_by_id r.id db = some m0 ∧
        media_get_by_id r.id db1 = some { m0 with
          cropped := true, x := some r.x, y := some r.y,
          width := some r.width, height := some r.height,
          confidence := some r.confidence }) ∧
    (∀ j p, ResponseItem.fileCropFailure j p ∈ files →
      ∃ m0, media_get_by_id j db = some m0 ∧
        media_get_by_id j db1 = some { m0 with cropped := true }) := by
  induction files generalizing db with
  | nil =>
    exact ⟨fun r hr => absurd hr (List.not_mem_nil _),
      fun j p hj => absurd hj (List.not_mem_nil _)⟩
  | cons f rest ih =>
    simp only [batchIds, List.map_cons, List.nodup_cons] at hnd
    obtain ⟨hnotin, hndrest⟩ := hnd
    have hndrest' : (batchIds rest).Nodup := by simpa [batchIds] using hndrest
    cases f with
    | fileCropSuccess r =>
      unfold applyBatchFiles at h
      rcases hg : media_get_by_id r.id db with _ | media
      · rw [hg] at h; cases h
      · rw [hg] at h
        dsimp only [] at h
        rcases hp : media.path with _ | s
        · rw [hp] at h; cases h
        · rw [hp] at h
          by_cases hr : renameOk r.cropped_path = true
          · rw [if_pos hr] at h
            have hid : media.id = r.id := media_get_by_id_eq _ _ _ hg
            obtain ⟨ihS, ihF⟩ := ih _ h hndrest'
            have hnotin' : r.id ∉ batchIds rest := by
              simpa [ResponseItem.itemId, batchIds] using hnotin
            constructor
            · intro r' hr'
              rcases List.mem_cons.mp hr' with heq | hmem
              · injection heq with heq
                subst heq
                refine ⟨media, hg, ?_⟩
                rw [hp]
                rw [applyBatchFiles_frame renameOk rest _ _ h _ hnotin']
                apply media_get_by_id_update_hit
                · exact hid
                · exact hg
              · obtain ⟨m0, hm0, hm1⟩ := ihS r' hmem
                refine ⟨m0, ?_, hm1⟩
                have hr'id : r'.id ∈ batchIds rest :=
                  List.mem_map_of_mem ResponseItem.itemId hmem
                have hne : r'.id ≠ r.id := fun hcon => hnotin' (hcon ▸ hr'id)
                rw [← hm0]
                apply Eq.symm
                apply media_get_by_id_update_ne
                show r'.id ≠ media.id
                rw [hid]
                exact hne
            · intro j p hj
              rcases List.mem_cons.mp hj with heq | hmem
              · cases heq
              · obtain ⟨m0, hm0, hm1⟩ := ihF j p hmem
                refine ⟨m0, ?_, hm1⟩
                have hjid : j ∈ batchIds rest :=
                  List.mem_map_of_mem ResponseItem.itemId hmem
                have hne : j ≠ r.id := fun hcon => hnotin' (hcon ▸ hjid)
                rw [← hm0]
                apply Eq.symm
                apply media_get_by_id_update_ne
                show j ≠ media.id
                rw [hid]
                exact hne
          · rw [if_neg hr] at h; cases h
    | fileCropFailure j0 p0 =>
      unfold applyBatchFiles at h
      rcases hg : media_get_by_id j0 db with _ | media
      · rw [hg] at h; cases h
      · rw [hg] at h
        dsimp only [] at h
        have hid : media.id = j0 := media_get_by_id_eq _ _ _ hg
        obtain ⟨ihS, ihF⟩ := ih _ h hndrest'
        have hnotin' : j0 ∉ batchIds rest := by
          simpa [ResponseItem.itemId, batchIds] using hnotin
        constructor
        · intro r' hr'
          rcases List.mem_cons.mp hr' with heq | hmem
          · cases heq
          · obtain ⟨m0, hm0, hm1⟩ := ihS r' hmem
            refine ⟨m0, ?_, hm1⟩
            have hr'id : r'.id ∈ batchIds rest :=
              List.mem_map_of_mem ResponseItem.itemId hmem
            have hne : r'.id ≠ j0 := fun hcon => hnotin' (hcon ▸ hr'id)
            rw [← hm0]
            apply Eq.symm
            apply media_get_by_id_update_ne
            show r'.id ≠ media.id
            rw [hid]
            exact hne
        · intro j p hj
          rcases List.mem_cons.mp hj with heq | hmem
          · injection heq with heq1 heq2
            subst heq1
            refine ⟨media, hg, ?_⟩
            rw [applyBatchFiles_frame renameOk rest _ _ h _ hnotin']
            apply media_get_by_id_update_hit
            · exact hid
            · exact hg
          · obtain ⟨m0, hm0, hm1⟩ := ihF j p hmem
            refine ⟨m0, ?_, hm1⟩
            have hjid : j ∈ batchIds rest :=
              List.mem_map_of_mem ResponseItem.itemId hmem
            have hne : j ≠ j0 := fun hcon => hnotin' (hcon ▸ hjid)
            rw [← hm0]
            apply Eq.symm
            apply media_get_by_id_update_ne
            show j ≠ media.id
            rw [hid]
            exact hne

/--
C6: applying one cropper batch is all-or-nothing.  When the per-file
application succeeds, the committed store is its result and every file of the
batch updated its media row — `cropped = true` with bounding box and
confidence for a success, `cropped = true` alone for a failure.  When it
fails anywhere before the commit, the committed store is the original one, so
no media of the batch is left with `cropped = true` that did not have it
before.
-/
theorem c6_crop_batch_all_or_nothing (renameOk : String → Bool) (batch : Batch)
    (db db1 : DbState) (hnd : (batchIds batch.files).Nodup) :
    (applyBatchFiles renameOk batch.files db = .ok db1 →
      wait_python_apply renameOk batch db = db1 ∧
      (∀ r, ResponseItem.fileCropSuccess r ∈ batch.files →
        ∃ m0, media_get_by_id r.id db = some m0 ∧
          media_get_by_id r.id db1 = some { m0 with
            cropped := true, x := some r.x, y := some r.y,
            width := some r.width, height := some r.height,
            confidence := some r.confidence }) ∧
      (∀ j p, ResponseItem.fileCropFailure j p ∈ batch.files →
        ∃ m0, media_get_by_id j db = some m0 ∧
          media_get_by_id j db1 = some { m0 with cropped := true })) ∧
    (∀ e, applyBatchFiles renameOk batch.files db = .error e →
      wait_python_apply renameOk batch db = db) := by
  constructor
  · intro h
    refine ⟨?_,
      (applyBatchFiles_ok_updates renameOk batch.files db db1 h hnd).1,
      (applyBatchFiles_ok_updates renameOk batch.files db db1 h hnd).2⟩
    unfold wait_python_apply
    rw [h]
  · intro e h
    unfold wait_python_apply
    rw [h]

/-- The two media rows of the C6 witness store, both downloaded. -/
def c6Media0 : MediaRow :=
  ⟨0, "cu0", some "g/1111_0.jpg", some 200, true, false, none, none, none,
    none, none, 0⟩

/-- Second media row of the C6 witness store. -/
def c6Media1 : MediaRow :=
  ⟨1, "cu1", some "g/1111_1.jpg", some 200, true, false, none, none, none,
    none, none, 0⟩

/-- The C6 witness store. -/
def c6Db : DbState := ⟨[exSp], [], [exOcc], [c6Media0, c6Media1], 1, 0, 1, 2⟩

/-- The C6 witness batch: one success (media 0) and one failure (media 1). -/
def c6Batch : Batch :=
  ⟨0, [.fileCropSuccess ⟨0, "g/1111_0.jpg", "tmp/0/1111_0.jpg", 1, 2, 3, 4, 5⟩,
    .fileCropFailure 1 "g/1111_1.jpg"]⟩

/-- The C6 witness store after the batch commits. -/
def c6Db1 : DbState :=
  ⟨[exSp], [], [exOcc],
    [⟨0, "cu0", some "g/1111_0.jpg", some 200, true, true, some 1, some 2,
      some 3, some 4, some 5, 0⟩,
     ⟨1, "cu1", some "g/1111_1.jpg", some 200, true, true, none, none, none,
      none, none, 0⟩], 1, 0, 1, 2⟩

/-- Witness for C6 at a concrete two-file batch. -/
theorem c6_crop_batch_all_or_nothing_witness :
    wait_python_apply (fun _ => true) c6Batch c6Db = c6Db1 :=
  ((c6_crop_batch_all_or_nothing (fun _ => true) c6Batch c6Db c6Db1
    (by decide)).1 (by decide)).1

end Scraper
